import Mathlib

/-!
Shallow embedding of `src/reacher/remote/hardware_tab.py` (class `HardwareTab`)
from the REACHER repository.

Modelling conventions:
- The mutable object state (the per-device armed flags, the button icons, the
  widget values, and the response/error logs owned by the base `Dashboard`) is
  a record `TabState`; each Python handler becomes a function
  `TabState → ... → TabState × List String`, the second component being the
  list of HTTP POST attempts issued by that invocation, each recorded as the
  command string it carries (every POST goes to the same
  serial-command endpoint with the same JSON shape and timeout, so the command
  string determines the request).
- The network is an oracle `net : Nat → NetResult` giving, for the k-th POST
  of the invocation, either a transport exception with its message or an HTTP
  response with a status code.  `requests` `raise_for_status` raises exactly
  for statuses outside 200..299; `postOutcome` models the try-block result of
  one POST: `none` means success, `some e` means an exception with text `e`
  was caught.
- `api_connected`, `get_api_config`, `add_response` and `add_error` are
  provided by the base `Dashboard` (outside this file); they are modelled as
  a boolean field and appends to two log lists, as the spec section 6
  describes them.
-/

/-- Result of one `requests.post` call: either the call raises a transport
exception carrying a message, or it returns a response with a status code. -/
inductive NetResult where
  | exn (msg : String)
  | resp (status : Nat)
deriving DecidableEq, Repr

/-- Statuses accepted by `raise_for_status`: the 2xx range. -/
def is2xx (status : Nat) : Bool :=
  200 ≤ status && status < 300

/-- Text of the HTTPError that `raise_for_status` raises on a non-2xx
status (the exact wording comes from the external `requests` library; only
its presence matters to the handlers). -/
def httpErrorText (status : Nat) : String :=
  "HTTP status " ++ toString status

/-- Outcome of `requests.post(...)` followed by `response.raise_for_status()`
inside a try block: `none` on a 2xx response, `some errText` when either the
post raises or the status is outside 2xx. -/
def postOutcome (r : NetResult) : Option String :=
  match r with
  | NetResult.exn m => some m
  | NetResult.resp c => if is2xx c then none else some (httpErrorText c)

/-- The mutable state of a `HardwareTab` object: the per-device armed flags
and toggle-button icons set in `__init__`, the configuration widget values,
and the `Dashboard` collaborator state (connection flag, response log, error
log). -/
structure TabState where
  api_connected : Bool
  rh_lever_armed : Bool
  lh_lever_armed : Bool
  cue_armed : Bool
  pump_armed : Bool
  lick_circuit_armed : Bool
  microscope_armed : Bool
  laser_armed : Bool
  rh_lever_icon : String
  lh_lever_icon : String
  cue_icon : String
  pump_icon : String
  lick_circuit_icon : String
  microscope_icon : String
  laser_icon : String
  cue_frequency : Int
  cue_duration : Int
  stim_mode : String
  stim_frequency : Int
  stim_duration : Int
  responses : List String
  errors : List (String × String)
deriving DecidableEq, Repr

/-- The informational message every handler records when the API is not
connected. -/
def notConnectedMsg : String := "Please connect to the API first."

/-- The state right after `HardwareTab.__init__`: every armed flag false,
every toggle icon "lock", the widget defaults, and empty logs.  The
connection flag lives in the base `Dashboard`; it is a parameter here. -/
def initState (connected : Bool) : TabState where
  api_connected := connected
  rh_lever_armed := false
  lh_lever_armed := false
  cue_armed := false
  pump_armed := false
  lick_circuit_armed := false
  microscope_armed := false
  laser_armed := false
  rh_lever_icon := "lock"
  lh_lever_icon := "lock"
  cue_icon := "lock"
  pump_icon := "lock"
  lick_circuit_icon := "lock"
  microscope_icon := "lock"
  laser_icon := "lock"
  cue_frequency := 8000
  cue_duration := 1600
  stim_mode := "Cycle"
  stim_frequency := 20
  stim_duration := 30
  responses := []
  errors := []

/-- `HardwareTab.arm_rh_lever`: toggle the RH lever armed flag and icon, then
POST `ARM_LEVER_RH` or `DISARM_LEVER_RH`; any exception is caught and logged
as an error. The event argument is unused, as in the source. -/
def arm_rh_lever (s : TabState) (_ev : Option String) (net : Nat → NetResult) :
    TabState × List String :=
  if !s.api_connected then
    ({ s with responses := s.responses ++ [notConnectedMsg] }, [])
  else
    let (data, s1) :=
      if !s.rh_lever_armed then
        ("ARM_LEVER_RH", { s with rh_lever_armed := true, rh_lever_icon := "unlock" })
      else
        ("DISARM_LEVER_RH", { s with rh_lever_armed := false, rh_lever_icon := "lock" })
    match postOutcome (net 0) with
    | none => (s1, [data])
    | some e =>
        ({ s1 with errors := s1.errors ++ [("Failed to arm or disarm RH lever", e)] }, [data])

/-- `HardwareTab.arm_lh_lever`: same pattern for the LH lever. -/
def arm_lh_lever (s : TabState) (_ev : Option String) (net : Nat → NetResult) :
    TabState × List String :=
  if !s.api_connected then
    ({ s with responses := s.responses ++ [notConnectedMsg] }, [])
  else
    let (data, s1) :=
      if !s.lh_lever_armed then
        ("ARM_LEVER_LH", { s with lh_lever_armed := true, lh_lever_icon := "unlock" })
      else
        ("DISARM_LEVER_LH", { s with lh_lever_armed := false, lh_lever_icon := "lock" })
    match postOutcome (net 0) with
    | none => (s1, [data])
    | some e =>
        ({ s1 with errors := s1.errors ++ [("Failed to arm or disarm LH lever", e)] }, [data])

/-- `HardwareTab.arm_cs`: same pattern for the cue stimulus. -/
def arm_cs (s : TabState) (_ev : Option String) (net : Nat → NetResult) :
    TabState × List String :=
  if !s.api_connected then
    ({ s with responses := s.responses ++ [notConnectedMsg] }, [])
  else
    let (data, s1) :=
      if !s.cue_armed then
        ("ARM_CS", { s with cue_armed := true, cue_icon := "unlock" })
      else
        ("DISARM_CS", { s with cue_armed := false, cue_icon := "lock" })
    match postOutcome (net 0) with
    | none => (s1, [data])
    | some e =>
        ({ s1 with errors := s1.errors ++ [("Failed to arm or disarm CS", e)] }, [data])

/-- `HardwareTab.arm_pump`: same pattern for the pump. -/
def arm_pump (s : TabState) (_ev : Option String) (net : Nat → NetResult) :
    TabState × List String :=
  if !s.api_connected then
    ({ s with responses := s.responses ++ [notConnectedMsg] }, [])
  else
    let (data, s1) :=
      if !s.pump_armed then
        ("ARM_PUMP", { s with pump_armed := true, pump_icon := "unlock" })
      else
        ("DISARM_PUMP", { s with pump_armed := false, pump_icon := "lock" })
    match postOutcome (net 0) with
    | none => (s1, [data])
    | some e =>
        ({ s1 with errors := s1.errors ++ [("Failed to arm or disarm pump", e)] }, [data])

/-- `HardwareTab.arm_lick_circuit`: same pattern for the lick circuit. -/
def arm_lick_circuit (s : TabState) (_ev : Option String) (net : Nat → NetResult) :
    TabState × List String :=
  if !s.api_connected then
    ({ s with responses := s.responses ++ [notConnectedMsg] }, [])
  else
    let (data, s1) :=
      if !s.lick_circuit_armed then
        ("ARM_LICK_CIRCUIT", { s with lick_circuit_armed := true, lick_circuit_icon := "unlock" })
      else
        ("DISARM_LICK_CIRCUIT", { s with lick_circuit_armed := false, lick_circuit_icon := "lock" })
    match postOutcome (net 0) with
    | none => (s1, [data])
    | some e =>
        ({ s1 with errors := s1.errors ++ [("Failed to arm or disarm lick circuit", e)] }, [data])

/-- `HardwareTab.arm_frames`: same pattern for the imaging timestamp receptor
(microscope); note the error label "2P" from the source. -/
def arm_frames (s : TabState) (_ev : Option String) (net : Nat → NetResult) :
    TabState × List String :=
  if !s.api_connected then
    ({ s with responses := s.responses ++ [notConnectedMsg] }, [])
  else
    let (data, s1) :=
      if !s.microscope_armed then
        ("ARM_FRAME", { s with microscope_armed := true, microscope_icon := "unlock" })
      else
        ("DISARM_FRAME", { s with microscope_armed := false, microscope_icon := "lock" })
    match postOutcome (net 0) with
    | none => (s1, [data])
    | some e =>
        ({ s1 with errors := s1.errors ++ [("Failed to arm or disarm 2P", e)] }, [data])

/-- `HardwareTab.arm_laser`: same pattern for the laser. -/
def arm_laser (s : TabState) (_ev : Option String) (net : Nat → NetResult) :
    TabState × List String :=
  if !s.api_connected then
    ({ s with responses := s.responses ++ [notConnectedMsg] }, [])
  else
    let (data, s1) :=
      if !s.laser_armed then
        ("ARM_LASER", { s with laser_armed := true, laser_icon := "unlock" })
      else
        ("DISARM_LASER", { s with laser_armed := false, laser_icon := "lock" })
    match postOutcome (net 0) with
    | none => (s1, [data])
    | some e =>
        ({ s1 with errors := s1.errors ++ [("Failed to arm or disarm laser", e)] }, [data])

/-- `HardwareTab.set_active_lever`: choose `ACTIVE_LEVER_LH` or
`ACTIVE_LEVER_RH` from the menu event and POST it.  For any other event value
no `data` variable is ever bound, so evaluating the post arguments raises a
NameError inside the try block: no POST is issued and the error is logged
(the NameError text comes from the Python runtime). -/
def set_active_lever (s : TabState) (evNew : String) (net : Nat → NetResult) :
    TabState × List String :=
  if !s.api_connected then
    ({ s with responses := s.responses ++ [notConnectedMsg] }, [])
  else
    if evNew = "LH Lever" then
      match postOutcome (net 0) with
      | none => (s, ["ACTIVE_LEVER_LH"])
      | some e =>
          ({ s with errors := s.errors ++ [("Failed to set active lever", e)] },
           ["ACTIVE_LEVER_LH"])
    else if evNew = "RH Lever" then
      match postOutcome (net 0) with
      | none => (s, ["ACTIVE_LEVER_RH"])
      | some e =>
          ({ s with errors := s.errors ++ [("Failed to set active lever", e)] },
           ["ACTIVE_LEVER_RH"])
    else
      ({ s with errors := s.errors ++
          [("Failed to set active lever", "NameError: name data is not defined")] }, [])

/-- `HardwareTab.send_cue_configuration`: POST `SET_FREQUENCY_CS:<n>`, then
`SET_DURATION_CS:<n>`; the first exception aborts the rest of the try block
and is logged once. -/
def send_cue_configuration (s : TabState) (_ev : Option String)
    (net : Nat → NetResult) : TabState × List String :=
  if !s.api_connected then
    ({ s with responses := s.responses ++ [notConnectedMsg] }, [])
  else
    let cmd1 := "SET_FREQUENCY_CS:" ++ toString s.cue_frequency
    match postOutcome (net 0) with
    | some e =>
        ({ s with errors := s.errors ++ [("Failed to send CS configuration", e)] }, [cmd1])
    | none =>
        let cmd2 := "SET_DURATION_CS:" ++ toString s.cue_duration
        match postOutcome (net 1) with
        | some e =>
            ({ s with errors := s.errors ++ [("Failed to send CS configuration", e)] },
             [cmd1, cmd2])
        | none => (s, [cmd1, cmd2])

/-- `HardwareTab.send_laser_configuration`: POST the stim mode (upper-cased),
then the duration, then the frequency; the first exception aborts the rest
and is logged once. -/
def send_laser_configuration (s : TabState) (_ev : Option String)
    (net : Nat → NetResult) : TabState × List String :=
  if !s.api_connected then
    ({ s with responses := s.responses ++ [notConnectedMsg] }, [])
  else
    let cmd1 := "LASER_STIM_MODE_" ++ s.stim_mode.toUpper
    match postOutcome (net 0) with
    | some e =>
        ({ s with errors := s.errors ++ [("Failed to send laser configuration", e)] }, [cmd1])
    | none =>
        let cmd2 := "LASER_DURATION:" ++ toString s.stim_duration
        match postOutcome (net 1) with
        | some e =>
            ({ s with errors := s.errors ++ [("Failed to send laser configuration", e)] },
             [cmd1, cmd2])
        | none =>
            let cmd3 := "LASER_FREQUENCY:" ++ toString s.stim_frequency
            match postOutcome (net 2) with
            | some e =>
                ({ s with errors := s.errors ++ [("Failed to send laser configuration", e)] },
                 [cmd1, cmd2, cmd3])
            | none => (s, [cmd1, cmd2, cmd3])

/-- The seven devices that have an arm/disarm toggle handler. -/
inductive Device where
  | lhLever
  | rhLever
  | cue
  | pump
  | lickCircuit
  | laser
  | frames
deriving DecidableEq, Repr

/-- `self.hardware_components`: the fixed name-to-handler mapping built in
`__init__`, with each handler represented by its `Device`. -/
def hardware_components (name : String) : Option Device :=
  match name with
  | "LH Lever" => some Device.lhLever
  | "RH Lever" => some Device.rhLever
  | "Cue" => some Device.cue
  | "Pump" => some Device.pump
  | "Lick Circuit" => some Device.lickCircuit
  | "Laser" => some Device.laser
  | "Imaging Timestamp Receptor" => some Device.frames
  | _ => none

/-- Invoke the toggle handler of a device (the handlers are the values of
`hardware_components` and of the toggle widget watchers). -/
def dispatch_component (d : Device) (s : TabState) (ev : Option String)
    (net : Nat → NetResult) : TabState × List String :=
  match d with
  | Device.lhLever => arm_lh_lever s ev net
  | Device.rhLever => arm_rh_lever s ev net
  | Device.cue => arm_cs s ev net
  | Device.pump => arm_pump s ev net
  | Device.lickCircuit => arm_lick_circuit s ev net
  | Device.laser => arm_laser s ev net
  | Device.frames => arm_frames s ev net

/-- `HardwareTab.arm_devices`: for each name in order, look it up in
`hardware_components` and, when found, invoke the handler with a `none`
placeholder event; unknown names are skipped.  The oracle is indexed first by
the handler-invocation count (skipped names consume no oracle row), then by
the POST index within that invocation. -/
def arm_devices (s : TabState) (devices : List String)
    (net : Nat → Nat → NetResult) : TabState × List String :=
  match devices with
  | [] => (s, [])
  | name :: rest =>
      match hardware_components name with
      | none => arm_devices s rest net
      | some d =>
          let r1 := dispatch_component d s none (net 0)
          let r2 := arm_devices r1.1 rest (fun i => net (i + 1))
          (r2.1, r1.2 ++ r2.2)

/-- The armed flag of a device in a state. -/
def armedFlag (d : Device) (s : TabState) : Bool :=
  match d with
  | Device.lhLever => s.lh_lever_armed
  | Device.rhLever => s.rh_lever_armed
  | Device.cue => s.cue_armed
  | Device.pump => s.pump_armed
  | Device.lickCircuit => s.lick_circuit_armed
  | Device.laser => s.laser_armed
  | Device.frames => s.microscope_armed

/-- The toggle-button icon of a device in a state. -/
def deviceIcon (d : Device) (s : TabState) : String :=
  match d with
  | Device.lhLever => s.lh_lever_icon
  | Device.rhLever => s.rh_lever_icon
  | Device.cue => s.cue_icon
  | Device.pump => s.pump_icon
  | Device.lickCircuit => s.lick_circuit_icon
  | Device.laser => s.laser_icon
  | Device.frames => s.microscope_icon

/-- The ARM command string of each device. -/
def armCmd (d : Device) : String :=
  match d with
  | Device.lhLever => "ARM_LEVER_LH"
  | Device.rhLever => "ARM_LEVER_RH"
  | Device.cue => "ARM_CS"
  | Device.pump => "ARM_PUMP"
  | Device.lickCircuit => "ARM_LICK_CIRCUIT"
  | Device.laser => "ARM_LASER"
  | Device.frames => "ARM_FRAME"

/-- The DISARM command string of each device. -/
def disarmCmd (d : Device) : String :=
  match d with
  | Device.lhLever => "DISARM_LEVER_LH"
  | Device.rhLever => "DISARM_LEVER_RH"
  | Device.cue => "DISARM_CS"
  | Device.pump => "DISARM_PUMP"
  | Device.lickCircuit => "DISARM_LICK_CIRCUIT"
  | Device.laser => "DISARM_LASER"
  | Device.frames => "DISARM_FRAME"

/-- The fixed error label each toggle handler passes to `add_error`. -/
def errLabel (d : Device) : String :=
  match d with
  | Device.lhLever => "Failed to arm or disarm LH lever"
  | Device.rhLever => "Failed to arm or disarm RH lever"
  | Device.cue => "Failed to arm or disarm CS"
  | Device.pump => "Failed to arm or disarm pump"
  | Device.lickCircuit => "Failed to arm or disarm lick circuit"
  | Device.laser => "Failed to arm or disarm laser"
  | Device.frames => "Failed to arm or disarm 2P"

/-- The flag/icon mutation a toggle handler performs before its POST. -/
def toggledState (d : Device) (s : TabState) : TabState :=
  match d with
  | Device.lhLever =>
      if !s.lh_lever_armed then { s with lh_lever_armed := true, lh_lever_icon := "unlock" }
      else { s with lh_lever_armed := false, lh_lever_icon := "lock" }
  | Device.rhLever =>
      if !s.rh_lever_armed then { s with rh_lever_armed := true, rh_lever_icon := "unlock" }
      else { s with rh_lever_armed := false, rh_lever_icon := "lock" }
  | Device.cue =>
      if !s.cue_armed then { s with cue_armed := true, cue_icon := "unlock" }
      else { s with cue_armed := false, cue_icon := "lock" }
  | Device.pump =>
      if !s.pump_armed then { s with pump_armed := true, pump_icon := "unlock" }
      else { s with pump_armed := false, pump_icon := "lock" }
  | Device.lickCircuit =>
      if !s.lick_circuit_armed then
        { s with lick_circuit_armed := true, lick_circuit_icon := "unlock" }
      else { s with lick_circuit_armed := false, lick_circuit_icon := "lock" }
  | Device.laser =>
      if !s.laser_armed then { s with laser_armed := true, laser_icon := "unlock" }
      else { s with laser_armed := false, laser_icon := "lock" }
  | Device.frames =>
      if !s.microscope_armed then
        { s with microscope_armed := true, microscope_icon := "unlock" }
      else { s with microscope_armed := false, microscope_icon := "lock" }

/-- The command string a toggle handler selects for its POST. -/
def toggleCmd (d : Device) (s : TabState) : String :=
  if armedFlag d s then disarmCmd d else armCmd d

/-- Floating-point modulo as Python computes it for positive operands:
a mod b = a - b * floor (a / b).  The source only applies it to nonnegative
times and positive periods, where exact rational arithmetic agrees with the
formula the spec states. -/
def fmod (a b : ℚ) : ℚ :=
  a - b * (Int.floor (a / b) : ℤ)

/-- The i-th of the 1000 sample times `np.linspace(0, 1, 1000)`:
t i = i / 999, evenly spaced over [0, 1]. -/
def linspace_t (i : Nat) : ℚ :=
  (i : ℚ) / 999

/-- The general-case sample of `plot_square_wave` at index i: high (1) iff
(t mod period) < period / 2 with period = 1 / frequency.  The frequency is
the integer value of the stim-frequency slider. -/
def general_sample (frequency : ℤ) (i : Nat) : ℚ :=
  let period := 1 / (frequency : ℚ)
  if fmod (linspace_t i) period < period / 2 then 1 else 0

/-- The waveform sample of `HardwareTab.plot_square_wave` at index i:
the frequency == 1 branch sets indices 1..998 high, everything else low;
any other frequency uses the general period formula. -/
def square_wave_sample (frequency : ℤ) (i : Nat) : ℚ :=
  if frequency = 1 then
    if 1 ≤ i ∧ i ≤ 998 then 1 else 0
  else
    general_sample frequency i

/-- The 1000-sample waveform `plot_square_wave` computes and plots (the
matplotlib rendering of this data is outside the model). -/
def square_wave (frequency : ℤ) : List ℚ :=
  (List.range 1000).map (square_wave_sample frequency)

/-- One user interaction on the tab: a toggle on one of the seven devices, a
menu selection, a configuration send, or a batch `arm_devices` call. -/
inductive TabAction where
  | toggle (d : Device)
  | selectLever (evNew : String)
  | cueConfig
  | laserConfig
  | batchArm (devices : List String)

/-- Run one action against a state, with its own network oracle (indexed by
invocation position, then POST index; single-handler actions use row 0). -/
def runAction (a : TabAction) (net : Nat → Nat → NetResult) (s : TabState) : TabState :=
  match a with
  | TabAction.toggle d => (dispatch_component d s none (net 0)).1
  | TabAction.selectLever evNew => (set_active_lever s evNew (net 0)).1
  | TabAction.cueConfig => (send_cue_configuration s none (net 0)).1
  | TabAction.laserConfig => (send_laser_configuration s none (net 0)).1
  | TabAction.batchArm devices => (arm_devices s devices net).1

/-- Run a sequence of actions, each with its own oracle, left to right. -/
def runActions (s : TabState) (acts : List (TabAction × (Nat → Nat → NetResult))) :
    TabState :=
  match acts with
  | [] => s
  | (a, net) :: rest => runActions (runAction a net s) rest

/-- Flag/icon agreement for one device: the icon is "unlock" when the flag
is true and "lock" when it is false. -/
def deviceConsistent (armed : Bool) (icon : String) : Prop :=
  icon = if armed then "unlock" else "lock"

/-- The spec invariant: every one of the seven devices has its icon agreeing
with its armed flag. -/
def consistent (s : TabState) : Prop :=
  deviceConsistent s.rh_lever_armed s.rh_lever_icon ∧
  deviceConsistent s.lh_lever_armed s.lh_lever_icon ∧
  deviceConsistent s.cue_armed s.cue_icon ∧
  deviceConsistent s.pump_armed s.pump_icon ∧
  deviceConsistent s.lick_circuit_armed s.lick_circuit_icon ∧
  deviceConsistent s.microscope_armed s.microscope_icon ∧
  deviceConsistent s.laser_armed s.laser_icon

/-- The effect of invoking the toggle handlers of a list of devices in order,
each with a `none` placeholder event, threading the state and concatenating
the POST traces.  This follows the words of the spec for `arm_devices`
("look up its arm handler ... and invoke it"), to be compared with
`arm_devices` itself. -/
def run_toggles (s : TabState) (ds : List Device) (net : Nat → Nat → NetResult) :
    TabState × List String :=
  match ds with
  | [] => (s, [])
  | d :: rest =>
      let r1 := dispatch_component d s none (net 0)
      let r2 := run_toggles r1.1 rest (fun i => net (i + 1))
      (r2.1, r1.2 ++ r2.2)

/-- Characterization of every toggle handler: when disconnected it only
records the informational message; when connected it applies the flag/icon
toggle, POSTs the selected command, and on a failed POST keeps the toggled
state and appends one error entry. -/
theorem toggle_result_eq (d : Device) (s : TabState) (ev : Option String)
    (net : Nat → NetResult) :
    dispatch_component d s ev net =
      if s.api_connected = false then
        ({ s with responses := s.responses ++ [notConnectedMsg] }, [])
      else
        match postOutcome (net 0) with
        | none => (toggledState d s, [toggleCmd d s])
        | some e =>
            ({ toggledState d s with errors := s.errors ++ [(errLabel d, e)] },
             [toggleCmd d s]) := by
  cases hc : s.api_connected <;>
  cases ho : postOutcome (net 0) <;>
  by_cases hf : armedFlag d s <;>
  cases d <;>
  simp_all [dispatch_component, arm_lh_lever, arm_rh_lever, arm_cs, arm_pump,
    arm_lick_circuit, arm_laser, arm_frames, toggledState, toggleCmd, armedFlag,
    armCmd, disarmCmd, errLabel]

/-- C3: with frequency == 1, `plot_square_wave` produces a 1000-sample
waveform whose samples at indices 1..998 are high (1) and whose samples at
indices 0 and 999 are low (0); the special-case branch is taken instead of
the general period formula, which at index 999 would give a high sample. -/
theorem C3_freq_one_special_case :
    (square_wave 1).length = 1000 ∧
    (∀ i, i < 1000 →
      (square_wave 1).getD i 0 = if 1 ≤ i ∧ i ≤ 998 then 1 else 0) ∧
    square_wave_sample 1 999 = 0 ∧ general_sample 1 999 = 1 := by
  refine ⟨by simp [square_wave], ?_, ?_, ?_⟩
  · intro i hi
    simp [square_wave, List.getD_eq_getElem?_getD, List.getElem?_map,
      List.getElem?_range, hi, square_wave_sample]
  · simp [square_wave_sample]
  · norm_num [general_sample, fmod, linspace_t]

/-- Witness for C3 at index 999: the sample there is low. -/
theorem C3_freq_one_special_case_witness :
    999 < 1000 ∧ (square_wave 1).getD 999 0 = if 1 ≤ 999 ∧ 999 ≤ 998 then 1 else 0 :=
  ⟨by decide, C3_freq_one_special_case.2.1 999 (by decide)⟩

/-- Samples of the waveform list are the sample function at the index. -/
theorem square_wave_getD (f : ℤ) (i : Nat) (hi : i < 1000) :
    (square_wave f).getD i 0 = square_wave_sample f i := by
  simp [square_wave, List.getD_eq_getElem?_getD, List.getElem?_map,
    List.getElem?_range, hi]

/-- C4: for every frequency other than 1, `plot_square_wave` samples 1000
evenly spaced time points over [0, 1] (t i = i / 999) and the sample at
index i is high (1) exactly when (t mod period) < period / 2 with
period = 1 / frequency; for frequency = 20 this reads t mod 0.05 < 0.025. -/
theorem C4_general_period_formula (f : ℤ) (hf : f ≠ 1) :
    (square_wave f).length = 1000 ∧
    linspace_t 0 = 0 ∧ linspace_t 999 = 1 ∧
    (∀ i : Nat, linspace_t (i + 1) - linspace_t i = 1 / 999) ∧
    (∀ i, i < 1000 →
      ((square_wave f).getD i 0 = 1 ↔
        fmod (linspace_t i) (1 / (f : ℚ)) < 1 / (f : ℚ) / 2)) ∧
    (∀ i, i < 1000 →
      ((square_wave 20).getD i 0 = 1 ↔
        fmod (linspace_t i) (0.05 : ℚ) < (0.025 : ℚ))) := by
  refine ⟨by simp [square_wave], by simp [linspace_t], by norm_num [linspace_t],
    ?_, ?_, ?_⟩
  · intro i
    field_simp [linspace_t]
  · intro i hi
    rw [square_wave_getD f i hi]
    simp only [square_wave_sample, hf, if_false, general_sample]
    split <;> simp_all
  · intro i hi
    have h20 : (20 : ℤ) ≠ 1 := by decide
    rw [square_wave_getD 20 i hi]
    simp only [square_wave_sample, h20, if_false, general_sample]
    have hp : (1 : ℚ) / ((20 : ℤ) : ℚ) = (0.05 : ℚ) := by norm_num
    have hh : (0.05 : ℚ) / 2 = (0.025 : ℚ) := by norm_num
    rw [hp, hh]
    split <;> simp_all

/-- Witness for C4 at frequency 20, index 0: the first sample is high and
indeed 0 mod 0.05 < 0.025. -/
theorem C4_general_period_formula_witness :
    (20 : ℤ) ≠ 1 ∧ 0 < 1000 ∧
    ((square_wave 20).getD 0 0 = 1 ↔
      fmod (linspace_t 0) (0.05 : ℚ) < (0.025 : ℚ)) :=
  ⟨by decide, by decide,
    (C4_general_period_formula 20 (by decide)).2.2.2.2.2 0 (by decide)⟩

/-- An all-2xx network oracle for concrete runs. -/
def okNet : Nat → NetResult := fun _ => NetResult.resp 200

/-- An all-2xx two-level network oracle for concrete batch runs. -/
def okNet2 : Nat → Nat → NetResult := fun _ _ => NetResult.resp 200

/-- Any toggle handler invoked while disconnected only appends the
informational message. -/
theorem dispatch_disconnected (d : Device) (s : TabState)
    (h : s.api_connected = false) (ev : Option String) (net : Nat → NetResult) :
    dispatch_component d s ev net =
      ({ s with responses := s.responses ++ [notConnectedMsg] }, []) := by
  rw [toggle_result_eq]
  simp [h]

/-- The number of names in a device list that `hardware_components` knows. -/
def knownCount (devices : List String) : Nat :=
  devices.countP fun n => (hardware_components n).isSome

/-- `arm_devices` invoked while disconnected issues no POST and appends one
informational message per listed name found in the mapping. -/
theorem arm_devices_disconnected (devices : List String) :
    ∀ (s : TabState), s.api_connected = false → ∀ (net : Nat → Nat → NetResult),
      arm_devices s devices net =
        ({ s with responses := s.responses ++ List.replicate (knownCount devices) notConnectedMsg }, []) := by
  induction devices with
  | nil => intro s h net; simp [arm_devices, knownCount]
  | cons name rest ih =>
      intro s h net
      cases hc : hardware_components name with
      | none => simp [arm_devices, hc, ih s h net, knownCount, List.countP_cons]
      | some d =>
          have hstep := dispatch_disconnected d s h none (net 0)
          have ih2 := ih { s with responses := s.responses ++ [notConnectedMsg] } h
            (fun i => net (i + 1))
          simp [arm_devices, hc, hstep, ih2, knownCount, List.countP_cons,
            List.replicate_succ, List.append_assoc]

/-- C1 counterexample: with the API disconnected, the batch handler
`arm_devices` invoked on the two known names Pump and Laser records two
informational messages, not exactly one, refuting the claim for
`arm_devices`. -/
theorem C1_counterexample :
    (arm_devices (initState false) ["Pump", "Laser"] okNet2).1.responses =
      [notConnectedMsg, notConnectedMsg] ∧
    (arm_devices (initState false) ["Pump", "Laser"] okNet2).1.responses ≠
      [notConnectedMsg] := by
  have h := arm_devices_disconnected ["Pump", "Laser"] (initState false) rfl okNet2
  have hk : knownCount ["Pump", "Laser"] = 2 := by decide
  rw [h]
  simp [initState, hk, notConnectedMsg]

/-- C1 (amended): each of the ten single-operation handlers, invoked while
`api_connected` is false, issues zero POSTs, records exactly the one
informational message, and changes nothing else; `arm_devices` issues zero
POSTs and records that message once per listed name known to the mapping
(so not exactly once in general). -/
theorem C1_not_connected_noop (s : TabState) (ev : Option String)
    (evNew : String) (net : Nat → NetResult) (bnet : Nat → Nat → NetResult)
    (devices : List String) (h : s.api_connected = false) :
    arm_lh_lever s ev net = ({ s with responses := s.responses ++ [notConnectedMsg] }, []) ∧
    arm_rh_lever s ev net = ({ s with responses := s.responses ++ [notConnectedMsg] }, []) ∧
    arm_cs s ev net = ({ s with responses := s.responses ++ [notConnectedMsg] }, []) ∧
    arm_pump s ev net = ({ s with responses := s.responses ++ [notConnectedMsg] }, []) ∧
    arm_lick_circuit s ev net = ({ s with responses := s.responses ++ [notConnectedMsg] }, []) ∧
    arm_frames s ev net = ({ s with responses := s.responses ++ [notConnectedMsg] }, []) ∧
    arm_laser s ev net = ({ s with responses := s.responses ++ [notConnectedMsg] }, []) ∧
    set_active_lever s evNew net = ({ s with responses := s.responses ++ [notConnectedMsg] }, []) ∧
    send_cue_configuration s ev net = ({ s with responses := s.responses ++ [notConnectedMsg] }, []) ∧
    send_laser_configuration s ev net = ({ s with responses := s.responses ++ [notConnectedMsg] }, []) ∧
    arm_devices s devices bnet =
      ({ s with responses := s.responses ++ List.replicate (knownCount devices) notConnectedMsg }, []) := by
  refine ⟨?_, ?_, ?_, ?_, ?_, ?_, ?_, ?_, ?_, ?_,
    arm_devices_disconnected devices s h bnet⟩ <;>
  simp [arm_lh_lever, arm_rh_lever, arm_cs, arm_pump, arm_lick_circuit,
    arm_frames, arm_laser, set_active_lever, send_cue_configuration,
    send_laser_configuration, h]

/-- Witness for C1 (amended) at the freshly initialized disconnected state:
the RH lever handler only records the message. -/
theorem C1_not_connected_noop_witness :
    (initState false).api_connected = false ∧
    arm_rh_lever (initState false) none okNet =
      ({ initState false with
          responses := (initState false).responses ++ [notConnectedMsg] }, []) :=
  ⟨rfl, (C1_not_connected_noop (initState false) none "LH Lever" okNet okNet2
    ["Pump"] rfl).2.1⟩

/-- Toggling flips the armed flag of the toggled device. -/
theorem armedFlag_toggledState (d : Device) (s : TabState) :
    armedFlag d (toggledState d s) = !armedFlag d s := by
  by_cases hf : armedFlag d s <;> cases d <;> simp_all [armedFlag, toggledState]

/-- Toggling sets the icon of the toggled device opposite to its old flag. -/
theorem deviceIcon_toggledState (d : Device) (s : TabState) :
    deviceIcon d (toggledState d s) = (if armedFlag d s then "lock" else "unlock") := by
  by_cases hf : armedFlag d s <;> cases d <;>
    simp_all [armedFlag, deviceIcon, toggledState]

/-- Appending to the error log does not change any armed flag. -/
theorem armedFlag_set_errors (d : Device) (x : TabState) (es : List (String × String)) :
    armedFlag d { x with errors := es } = armedFlag d x := by
  cases d <;> rfl

/-- Appending to the error log does not change any icon. -/
theorem deviceIcon_set_errors (d : Device) (x : TabState) (es : List (String × String)) :
    deviceIcon d { x with errors := es } = deviceIcon d x := by
  cases d <;> rfl

/-- Toggling does not change the connection flag. -/
theorem api_connected_toggledState (d : Device) (s : TabState) :
    (toggledState d s).api_connected = s.api_connected := by
  by_cases hf : armedFlag d s <;> cases d <;> simp_all [armedFlag, toggledState]

/-- C2 (amended): for every device with a toggle handler, invoking the
handler twice while connected restores the armed flag, leaves the icon
agreeing with that restored flag (hence restores the icon whenever it agreed
with the flag before, as it does in every reachable state), and issues
exactly one ARM and one DISARM command: the ARM first exactly when the
device was initially disarmed, the DISARM first when it was initially
armed. -/
theorem C2_toggle_twice (d : Device) (s : TabState) (n1 n2 : Nat → NetResult)
    (hc : s.api_connected = true) :
    armedFlag d (dispatch_component d (dispatch_component d s none n1).1 none n2).1 =
      armedFlag d s ∧
    deviceIcon d (dispatch_component d (dispatch_component d s none n1).1 none n2).1 =
      (if armedFlag d s then "unlock" else "lock") ∧
    (deviceIcon d s = (if armedFlag d s then "unlock" else "lock") →
      deviceIcon d (dispatch_component d (dispatch_component d s none n1).1 none n2).1 =
        deviceIcon d s) ∧
    (dispatch_component d s none n1).2 ++
      (dispatch_component d (dispatch_component d s none n1).1 none n2).2 =
      (if armedFlag d s then [disarmCmd d, armCmd d] else [armCmd d, disarmCmd d]) := by
  cases hf : armedFlag d s <;>
  cases ho1 : postOutcome (n1 0) <;>
  cases ho2 : postOutcome (n2 0) <;>
  cases d <;>
  simp_all [dispatch_component, arm_lh_lever, arm_rh_lever, arm_cs, arm_pump,
    arm_lick_circuit, arm_laser, arm_frames, armedFlag, deviceIcon, toggleCmd,
    armCmd, disarmCmd, hc]

/-- The state reached from the initial connected state by one successful RH
lever toggle: the lever is armed with icon "unlock". -/
def rhArmedState : TabState :=
  (arm_rh_lever (initState true) none okNet).1

/-- C2 counterexample: from the reachable connected state in which the RH
lever is already armed, invoking the toggle handler twice sends the DISARM
command first and the ARM command second, refuting the claim that the ARM
command always comes first. -/
theorem C2_counterexample :
    rhArmedState = (arm_rh_lever (initState true) none okNet).1 ∧
    rhArmedState.api_connected = true ∧
    rhArmedState.rh_lever_armed = true ∧
    rhArmedState.rh_lever_icon = "unlock" ∧
    (arm_rh_lever rhArmedState none okNet).2 ++
      (arm_rh_lever (arm_rh_lever rhArmedState none okNet).1 none okNet).2 =
      ["DISARM_LEVER_RH", "ARM_LEVER_RH"] ∧
    ["DISARM_LEVER_RH", "ARM_LEVER_RH"] ≠ ["ARM_LEVER_RH", "DISARM_LEVER_RH"] := by
  refine ⟨rfl, rfl, rfl, rfl, ?_, by decide⟩
  decide

/-- Witness for C2 (amended) at the initial connected state with the RH
lever: the flag round-trips and the ARM command comes first. -/
theorem C2_toggle_twice_witness :
    (initState true).api_connected = true ∧
    armedFlag Device.rhLever
      (dispatch_component Device.rhLever
        (dispatch_component Device.rhLever (initState true) none okNet).1 none okNet).1 =
      armedFlag Device.rhLever (initState true) ∧
    (dispatch_component Device.rhLever (initState true) none okNet).2 ++
      (dispatch_component Device.rhLever
        (dispatch_component Device.rhLever (initState true) none okNet).1 none okNet).2 =
      (if armedFlag Device.rhLever (initState true)
        then [disarmCmd Device.rhLever, armCmd Device.rhLever]
        else [armCmd Device.rhLever, disarmCmd Device.rhLever]) :=
  ⟨rfl, (C2_toggle_twice Device.rhLever (initState true) okNet okNet rfl).1,
    (C2_toggle_twice Device.rhLever (initState true) okNet okNet rfl).2.2.2⟩

/-- The initial state satisfies the flag/icon agreement invariant. -/
theorem consistent_initState (connected : Bool) : consistent (initState connected) := by
  simp [consistent, deviceConsistent, initState]

/-- Toggling keeps the flag/icon agreement: the toggled device gets its flag
and icon updated together, the others are untouched. -/
theorem consistent_toggledState (d : Device) (s : TabState) (h : consistent s) :
    consistent (toggledState d s) := by
  by_cases hf : armedFlag d s <;> cases d <;>
    simp_all [armedFlag, toggledState, consistent, deviceConsistent]

/-- Every toggle handler preserves the flag/icon agreement invariant, on
success and on failure alike. -/
theorem dispatch_consistent (d : Device) (s : TabState) (ev : Option String)
    (net : Nat → NetResult) (h : consistent s) :
    consistent (dispatch_component d s ev net).1 := by
  rw [toggle_result_eq]
  by_cases hc : s.api_connected = false
  · rw [if_pos hc]
    exact h
  · rw [if_neg hc]
    cases ho : postOutcome (net 0) <;> simp only [ho] <;>
      exact consistent_toggledState d s h

/-- `set_active_lever` touches no flag or icon, so it preserves the
invariant. -/
theorem set_active_lever_consistent (s : TabState) (evNew : String)
    (net : Nat → NetResult) (h : consistent s) :
    consistent (set_active_lever s evNew net).1 := by
  unfold set_active_lever
  repeat' split
  all_goals exact h

/-- `send_cue_configuration` touches no flag or icon. -/
theorem send_cue_configuration_consistent (s : TabState) (ev : Option String)
    (net : Nat → NetResult) (h : consistent s) :
    consistent (send_cue_configuration s ev net).1 := by
  unfold send_cue_configuration
  repeat' split
  all_goals exact h

/-- `send_laser_configuration` touches no flag or icon. -/
theorem send_laser_configuration_consistent (s : TabState) (ev : Option String)
    (net : Nat → NetResult) (h : consistent s) :
    consistent (send_laser_configuration s ev net).1 := by
  unfold send_laser_configuration
  repeat' split
  all_goals exact h

/-- `arm_devices` preserves the invariant: it only chains toggle handlers. -/
theorem arm_devices_consistent (devices : List String) :
    ∀ (s : TabState) (net : Nat → Nat → NetResult), consistent s →
      consistent (arm_devices s devices net).1 := by
  induction devices with
  | nil => intro s net h; simpa [arm_devices] using h
  | cons name rest ih =>
      intro s net h
      cases hc : hardware_components name with
      | none => simpa [arm_devices, hc] using ih s net h
      | some d =>
          simp only [arm_devices, hc]
          exact ih _ _ (dispatch_consistent d s none (net 0) h)

/-- Every single user action preserves the invariant. -/
theorem runAction_consistent (a : TabAction) (net : Nat → Nat → NetResult)
    (s : TabState) (h : consistent s) : consistent (runAction a net s) := by
  cases a with
  | toggle d => exact dispatch_consistent d s none (net 0) h
  | selectLever evNew => exact set_active_lever_consistent s evNew (net 0) h
  | cueConfig => exact send_cue_configuration_consistent s none (net 0) h
  | laserConfig => exact send_laser_configuration_consistent s none (net 0) h
  | batchArm devices => exact arm_devices_consistent devices s net h

/-- Action sequences preserve the invariant. -/
theorem runActions_consistent (acts : List (TabAction × (Nat → Nat → NetResult))) :
    ∀ (s : TabState), consistent s → consistent (runActions s acts) := by
  induction acts with
  | nil => intro s h; exact h
  | cons p rest ih =>
      intro s h
      exact ih _ (runAction_consistent p.1 p.2 s h)

/-- C5: after any sequence of handler invocations from the freshly
initialized state, with any network outcomes, every device's armed flag
agrees with its icon: "unlock" exactly when the flag is true, "lock" exactly
when it is false.  Each handler updates flag and icon together, so the
agreement survives failed POSTs as well. -/
theorem C5_flag_icon_invariant (connected : Bool)
    (acts : List (TabAction × (Nat → Nat → NetResult))) :
    consistent (runActions (initState connected) acts) :=
  runActions_consistent acts (initState connected) (consistent_initState connected)

/-- Toggling does not change the error log. -/
theorem errors_toggledState (d : Device) (s : TabState) :
    (toggledState d s).errors = s.errors := by
  by_cases hf : armedFlag d s <;> cases d <;> simp_all [armedFlag, toggledState]

/-- C6: for every arm/disarm handler, when the POST fails (exception or
non-2xx status), the flag and icon changes applied before the POST are kept,
not reverted: the result is exactly the toggled state plus one error entry
carrying the handler's fixed label and the error text, with the selected
command having been posted. -/
theorem C6_failure_keeps_toggle (d : Device) (s : TabState) (ev : Option String)
    (net : Nat → NetResult) (e : String) (hc : s.api_connected = true)
    (he : postOutcome (net 0) = some e) :
    dispatch_component d s ev net =
      ({ toggledState d s with errors := s.errors ++ [(errLabel d, e)] },
       [toggleCmd d s]) := by
  rw [toggle_result_eq, if_neg (by simp [hc]), he]

/-- Witness for C6: failing the POST while arming the RH lever from the
initial connected state keeps the armed flag and logs one error. -/
theorem C6_failure_keeps_toggle_witness :
    (initState true).api_connected = true ∧
    postOutcome (NetResult.exn "boom") = some "boom" ∧
    dispatch_component Device.rhLever (initState true) none
        (fun _ => NetResult.exn "boom") =
      ({ toggledState Device.rhLever (initState true) with
          errors := (initState true).errors ++ [(errLabel Device.rhLever, "boom")] },
       [toggleCmd Device.rhLever (initState true)]) :=
  ⟨rfl, rfl, C6_failure_keeps_toggle Device.rhLever (initState true) none
    (fun _ => NetResult.exn "boom") "boom" rfl rfl⟩

/-- C7: in the configuration senders the first failed POST aborts the
remaining POSTs of that call and exactly one error entry is recorded for the
whole operation; in particular when the second cue POST fails, the first
(SET_FREQUENCY_CS) has already been sent and SET_DURATION_CS is not
retried. -/
theorem C7_config_abort (s : TabState) (ev : Option String)
    (net : Nat → NetResult) (e : String) (hc : s.api_connected = true) :
    (postOutcome (net 0) = some e →
      send_cue_configuration s ev net =
        ({ s with errors := s.errors ++ [("Failed to send CS configuration", e)] },
         ["SET_FREQUENCY_CS:" ++ toString s.cue_frequency]) ∧
      send_laser_configuration s ev net =
        ({ s with errors := s.errors ++ [("Failed to send laser configuration", e)] },
         ["LASER_STIM_MODE_" ++ s.stim_mode.toUpper])) ∧
    (postOutcome (net 0) = none → postOutcome (net 1) = some e →
      send_cue_configuration s ev net =
        ({ s with errors := s.errors ++ [("Failed to send CS configuration", e)] },
         ["SET_FREQUENCY_CS:" ++ toString s.cue_frequency,
          "SET_DURATION_CS:" ++ toString s.cue_duration]) ∧
      send_laser_configuration s ev net =
        ({ s with errors := s.errors ++ [("Failed to send laser configuration", e)] },
         ["LASER_STIM_MODE_" ++ s.stim_mode.toUpper,
          "LASER_DURATION:" ++ toString s.stim_duration])) ∧
    (postOutcome (net 0) = none → postOutcome (net 1) = none →
      postOutcome (net 2) = some e →
      send_laser_configuration s ev net =
        ({ s with errors := s.errors ++ [("Failed to send laser configuration", e)] },
         ["LASER_STIM_MODE_" ++ s.stim_mode.toUpper,
          "LASER_DURATION:" ++ toString s.stim_duration,
          "LASER_FREQUENCY:" ++ toString s.stim_frequency])) := by
  refine ⟨fun h0 => ⟨?_, ?_⟩, fun h0 h1 => ⟨?_, ?_⟩, fun h0 h1 h2 => ?_⟩ <;>
    simp_all [send_cue_configuration, send_laser_configuration, hc]

/-- A network oracle whose second POST raises and whose others succeed. -/
def secondFails : Nat → NetResult :=
  fun k => if k = 0 then NetResult.resp 200 else NetResult.exn "boom"

/-- Witness for C7: the second cue POST fails from the initial connected
state; SET_FREQUENCY_CS was sent, one error entry is recorded. -/
theorem C7_config_abort_witness :
    (initState true).api_connected = true ∧
    postOutcome (secondFails 0) = none ∧
    postOutcome (secondFails 1) = some "boom" ∧
    send_cue_configuration (initState true) none secondFails =
      ({ initState true with
          errors := (initState true).errors ++
            [("Failed to send CS configuration", "boom")] },
       ["SET_FREQUENCY_CS:" ++ toString (initState true).cue_frequency,
        "SET_DURATION_CS:" ++ toString (initState true).cue_duration]) :=
  ⟨rfl, rfl, rfl,
    ((C7_config_abort (initState true) none secondFails "boom" rfl).2.1 rfl rfl).1⟩

/-- C8: a response with a non-2xx status is treated as a failure by every
posting handler (one error entry is appended) and a 2xx response as success
(no error entry): shown for `raise_for_status` itself, the seven toggle
handlers, `set_active_lever`, and the first POST of the two configuration
senders (whose later POSTs are assumed to respond 2xx so that only the
status of the inspected response varies). -/
theorem C8_status_classes (s : TabState) (d : Device) (ev : Option String)
    (c : Nat) (net : Nat → NetResult) (hc : s.api_connected = true)
    (h0 : net 0 = NetResult.resp c) :
    (postOutcome (NetResult.resp c) =
      if is2xx c then none else some (httpErrorText c)) ∧
    (dispatch_component d s ev net).1.errors =
      s.errors ++ (if is2xx c then [] else [(errLabel d, httpErrorText c)]) ∧
    (set_active_lever s "LH Lever" net).1.errors =
      s.errors ++
        (if is2xx c then [] else [("Failed to set active lever", httpErrorText c)]) ∧
    (postOutcome (net 1) = none →
      (send_cue_configuration s ev net).1.errors =
        s.errors ++
          (if is2xx c then [] else [("Failed to send CS configuration", httpErrorText c)])) ∧
    (postOutcome (net 1) = none → postOutcome (net 2) = none →
      (send_laser_configuration s ev net).1.errors =
        s.errors ++
          (if is2xx c then [] else [("Failed to send laser configuration", httpErrorText c)])) := by
  by_cases hx : is2xx c
  · refine ⟨by simp [postOutcome, hx], ?_, ?_, fun h1 => ?_, fun h1 h2 => ?_⟩ <;>
      (try rw [toggle_result_eq]) <;>
      simp_all [set_active_lever, send_cue_configuration, send_laser_configuration,
        postOutcome, hx, hc, errors_toggledState]
  · refine ⟨by simp [postOutcome, hx], ?_, ?_, fun h1 => ?_, fun h1 h2 => ?_⟩ <;>
      (try rw [toggle_result_eq]) <;>
      simp_all [set_active_lever, send_cue_configuration, send_laser_configuration,
        postOutcome, hx, hc, errors_toggledState]

/-- A network oracle whose first POST gets a 404 and whose others succeed. -/
def firstNon2xx : Nat → NetResult :=
  fun k => if k = 0 then NetResult.resp 404 else NetResult.resp 200

/-- Witness for C8: a 404 on the RH lever POST from the initial connected
state appends exactly the one error entry. -/
theorem C8_status_classes_witness :
    (initState true).api_connected = true ∧
    firstNon2xx 0 = NetResult.resp 404 ∧
    (dispatch_component Device.rhLever (initState true) none firstNon2xx).1.errors =
      (initState true).errors ++
        (if is2xx 404 then [] else [(errLabel Device.rhLever, httpErrorText 404)]) :=
  ⟨rfl, rfl,
    (C8_status_classes (initState true) Device.rhLever none 404 firstNon2xx rfl rfl).2.1⟩

/-- C9: `arm_devices` walks the input names in order, looks each one up in
the fixed `hardware_components` mapping, invokes found handlers with a
`none` placeholder event, and silently skips unknown names with no message,
error, or POST: a run equals the run of the toggle handlers of exactly the
mapped devices, in order. -/
theorem C9_arm_devices_dispatch (devices : List String) :
    ∀ (s : TabState) (net : Nat → Nat → NetResult),
      arm_devices s devices net =
        run_toggles s (devices.filterMap hardware_components) net := by
  induction devices with
  | nil => intro s net; rfl
  | cons name rest ih =>
      intro s net
      cases hc : hardware_components name with
      | none => simp [arm_devices, hc, List.filterMap_cons, ih]
      | some d => simp [arm_devices, run_toggles, hc, List.filterMap_cons, ih]

/-- The state reached from the initial connected state by one successful
pump toggle: the pump is armed. -/
def pumpArmedState : TabState :=
  (arm_pump (initState true) none okNet).1

/-- C10: `arm_devices` on a device whose armed flag is already true does not
arm it: being a dispatch to the toggle handler, it sends the DISARM command
and clears the flag, so `arm_devices` does not guarantee the listed devices
end up armed. -/
theorem C10_batch_arm_disarms_armed (s : TabState) (net : Nat → Nat → NetResult)
    (hc : s.api_connected = true) (hp : s.pump_armed = true) :
    (arm_devices s ["Pump"] net).2 = ["DISARM_PUMP"] ∧
    (arm_devices s ["Pump"] net).1.pump_armed = false := by
  have hm : hardware_components "Pump" = some Device.pump := rfl
  cases ho : postOutcome (net 0 0) <;>
    simp [arm_devices, hm, dispatch_component, arm_pump, hc, hp, ho]

/-- Witness for C10: from the reachable state with the pump armed,
`arm_devices ["Pump"]` sends DISARM_PUMP and clears the flag. -/
theorem C10_batch_arm_disarms_armed_witness :
    pumpArmedState.api_connected = true ∧
    pumpArmedState.pump_armed = true ∧
    (arm_devices pumpArmedState ["Pump"] okNet2).2 = ["DISARM_PUMP"] ∧
    (arm_devices pumpArmedState ["Pump"] okNet2).1.pump_armed = false :=
  ⟨rfl, rfl, (C10_batch_arm_disarms_armed pumpArmedState okNet2 rfl rfl).1,
    (C10_batch_arm_disarms_armed pumpArmedState okNet2 rfl rfl).2⟩
